import Mathlib

/-!
Shallow embedding of `axios-imposto` (an Axios-like fetch client) for
verification of its specification.

Source files embedded:
* `src/core/interceptor.ts`  — `createInterceptorManager` (use / eject / forEach)
* `src/utils/parseSSE.ts`    — `parseSSEMessage`
* `src/utils/buildURL.ts`    — `buildURL`
* `src/core/FetchAxios.ts`   — `createFetchClient` : the `request` pipeline,
  the HTTP-method wrappers (`get`/`post`/`put`/`patch`/`delete`) and the
  SSE connection manager.

JavaScript values are modelled explicitly: machine behaviour such as object
spread, nullish coalescing, `Number.parseInt`, truthiness and the
promise-chain threading of interceptors is reproduced from the source.
The network is an explicit environment value (`NetEnv`): whether the server
answers before the armed timeout fires and, if so, which response or
transport error results.
-/

namespace AxiosImposto

/-- A JSON value, the result of `JSON.parse` / `Response.json()`. -/
inductive Json where
  | jnull : Json
  | jbool : Bool → Json
  | jnum : Int → Json
  | jstr : String → Json
  | jarr : List Json → Json
  | jobj : List (String × Json) → Json
deriving Repr

/-- A thrown JavaScript `Error`: its `name` and `message` properties,
which are all the `request` catch-block inspects. -/
structure JsError where
  name : String
  message : String
deriving Repr, DecidableEq

/-- A request body, as a tagged union: `FetchAxios.ts` distinguishes
`FormData` bodies (via `instanceof FormData`) from string bodies and
absent bodies (`RequestBody = string | FormData | undefined`). -/
inductive Body where
  | formData : Body
  | str : String → Body
  | none : Body
deriving Repr, DecidableEq

/-- JavaScript object-spread accumulation for header records:
`objAssign base upd` is `\x7b ...base, ...upd \x7d`.  A key of `upd` that
already occurs in `base` (exact, case-sensitive string equality, as for
JS property keys) overwrites the value in place, keeping the original
insertion position; a fresh key is appended at the end.  `objStep` adds
one key/value pair to an accumulated record under those rules. -/
def objStep (acc : List (String × String)) (kv : String × String) :
    List (String × String) :=
  if acc.any (fun p => p.1 = kv.1) then
    acc.map (fun p => if p.1 = kv.1 then (p.1, kv.2) else p)
  else
    acc ++ [kv]

/-- `objAssign base upd` is the JS object spread `\x7b ...base, ...upd \x7d`
(with both arguments read as records: keys listed in insertion order). -/
def objAssign (base upd : List (String × String)) : List (String × String) :=
  upd.foldl objStep base

/-- ASCII lower-casing, stated over the character list. -/
def jsToLower (s : String) : String :=
  ⟨s.data.map Char.toLower⟩

/-- Case-insensitive key lookup over a header record (what a reader asking
"is there a content-type header?" means). -/
def lookupCI (hs : List (String × String)) (k : String) : Option String :=
  (hs.find? (fun p => jsToLower p.1 = jsToLower k)).map (·.2)

/-- JS `String.prototype.startsWith`, stated over the character list. -/
def jsStartsWith (s pre : String) : Bool :=
  pre.data.isPrefixOf s.data

/-- JS `String.prototype.endsWith`, stated over the character list. -/
def jsEndsWith (s suf : String) : Bool :=
  suf.data.isSuffixOf s.data

/-- JS `String.prototype.slice(n)` for a non-negative start index. -/
def jsSlice (s : String) (n : Nat) : String :=
  ⟨s.data.drop n⟩

/-- JS `String.prototype.split` with a single-character separator: every
occurrence of the separator cuts; leading, trailing and adjacent
separators produce empty parts, and the empty string yields `[""]`. -/
def splitChar (sep : Char) (s : String) : List String :=
  (splitCharList sep s.data).map (fun l => ⟨l⟩)
where
  splitCharList (sep : Char) : List Char → List (List Char)
    | [] => [[]]
    | c :: rest =>
      let r := splitCharList sep rest
      if c = sep then [] :: r
      else
        match r with
        | [] => [[c]]
        | y :: ys => (c :: y) :: ys

/-- `src/utils/buildURL.ts`: absolute URLs (scheme prefix `http`) pass
through; otherwise one trailing slash of `baseURL` and one leading slash
of `endpoint` are removed (the source regexes `/\/$/` and `/^\//` each
strip a single slash) and the two are joined with `/`. -/
def buildURL (baseURL endpoint : String) : String :=
  if jsStartsWith endpoint "http" then endpoint
  else
    (if jsEndsWith baseURL "/" then ⟨baseURL.data.dropLast⟩ else baseURL) ++ "/" ++
    (if jsStartsWith endpoint "/" then jsSlice endpoint 1 else endpoint)

end AxiosImposto

namespace AxiosImposto.Interceptor

/-- One registered interceptor pair (`InterceptorHandler<T>` in
`src/types/index.ts`): a fulfillment function and an optional rejection
function.  `E` is the error type carried along the promise chain. -/
structure Handler (E T : Type) where
  fulfilled : T → Except E T
  rejected : Option (E → Except E T)

/-- The private closure state of `createInterceptorManager`
(`src/core/interceptor.ts`): the `handler` array, whose slots are either
a live handler or `null` (tombstoned by `eject`). -/
structure ManagerState (E T : Type) where
  handler : List (Option (Handler E T))

/-- `use`: appends the handler pair and returns `handler.length - 1`,
the zero-based slot index, as the handle. -/
def use {E T : Type} (s : ManagerState E T) (h : Handler E T) :
    ManagerState E T × Nat :=
  (⟨s.handler ++ [some h]⟩, s.handler.length)

/-- `eject`: `if (handler[id]) \x7b handler[id] = null \x7d`.  The guard is
JS truthiness: a stored handler object is truthy, a `null` slot and an
out-of-range access (`undefined`) are falsy, so both of those cases do
nothing at all. -/
def eject {E T : Type} (s : ManagerState E T) (id : Nat) : ManagerState E T :=
  if (s.handler.getD id Option.none).isSome then
    ⟨s.handler.set id Option.none⟩
  else s

/-- The list of handlers `forEach` visits, in order: the source iterates
the slot array front to back and calls `fn (h)` exactly on the slots that
are not `null`. -/
def visited {E T : Type} (s : ManagerState E T) : List (Handler E T) :=
  s.handler.reduceOption

end AxiosImposto.Interceptor

namespace AxiosImposto

/-- Modelled from the spec: the `FetchClientError` class is exported by the
package but its definition file is not in the sources (only its call sites
and the README describe it).  Per the spec's error surface it carries a
message, a code (one of `ERR_NETWORK`, `ERR_BAD_RESPONSE`, `ECONNABORTED`),
the finalized request configuration, and optionally the raw response.  The
message is a JS value (the non-OK path passes `errorBody?.message` through
unchanged), so it is modelled as `Json`, with `Json.jstr` for the ordinary
string messages. -/
structure FetchClientError (Config Resp : Type) where
  message : Json
  config : Config
  code : String
  response : Option Resp

/-- A value thrown inside the pipeline: either a plain JS error or an
already-constructed `FetchClientError` (distinguished in the catch block
by `instanceof FetchClientError`). -/
inductive Thrown (Config Resp : Type) where
  | js : JsError → Thrown Config Resp
  | fce : FetchClientError Config Resp → Thrown Config Resp

/-- A fetch `Response`, abstracted to what the pipeline inspects: the
status code and the result of `await response.json()` (either a parse
failure or the decoded value). -/
structure Resp where
  status : Nat
  jsonResult : Except JsError Json

/-- `Response.ok`: status in the inclusive range 200–299. -/
def respOk (status : Nat) : Bool :=
  200 ≤ status && status ≤ 299

/-- The finalized request configuration assembled at
`src/core/FetchAxios.ts` lines 72–91 (the `AbortController` signal is
carried implicitly by the timeout model). -/
structure Config where
  method : Option String
  body : Body
  headers : List (String × String)
  credentials : String
  timeout : Nat
  isStream : Bool
  url : String
  baseURL : String

/-- A `Response` with the non-enumerable `config` back-reference that the
pipeline attaches via `Object.defineProperty` before the response
interceptors run. -/
structure RespC where
  resp : Resp
  config : Config

/-- Error type threaded through both interceptor chains. -/
abbrev Err := Thrown Config Resp

/-- One step of the promise chain `p.then(fulfilled, rejected)`: a resolved
value goes through `fulfilled`; a rejection goes through `rejected` when
one was registered (which may recover) and is otherwise propagated. -/
def chainStep {T : Type} (st : Except Err T) (h : Interceptor.Handler Err T) :
    Except Err T :=
  match st with
  | .ok v => h.fulfilled v
  | .error e =>
    match h.rejected with
    | some r => r e
    | none => .error e

/-- The interceptor chain built by `requestInterceptors.forEach` /
`responseInterceptors.forEach`: starting from `Promise.resolve(init)`,
each non-ejected handler contributes one `.then(fulfilled, rejected)`
stage, in registration order. -/
def runChain {T : Type} (s : Interceptor.ManagerState Err T) (init : T) :
    Except Err T :=
  (Interceptor.visited s).foldl chainStep (.ok init)

/-- The per-client state: construction defaults plus the two interceptor
registries. -/
structure Client where
  baseURL : String := ""
  defaultHeaders : List (String × String) := []
  defaultTimeout : Nat := 10000
  defaultCredentials : String := "same-origin"
  reqInterceptors : Interceptor.ManagerState Err Config := ⟨[]⟩
  resInterceptors : Interceptor.ManagerState Err RespC := ⟨[]⟩

/-- Per-call options (`CustomRequestInit`): the fields `request`
destructures or spreads. -/
structure Options where
  timeout : Option Nat := Option.none
  headers : List (String × String) := []
  method : Option String := Option.none
  body : Body := Body.none
  credentials : Option String := Option.none

/-- The network environment of one call: whether the server's answer
arrives before an armed timeout timer would fire, and the transport
outcome (a response, or a thrown error such as a DNS failure) that the
`fetch` promise settles with when it is not aborted. -/
structure NetEnv where
  respondsInTime : Bool
  outcome : Except JsError Resp

/-- Lines 54–56: the timeout timer is armed if and only if the call is not
a streaming call (`if (!isStream) timeoutId = setTimeout(...)`). -/
def armsTimer (isStream : Bool) : Bool :=
  !isStream

/-- The settled result of `await fetch(url, config)` under environment
`env`: when a timer is armed and the server does not answer in time, the
controller aborts the request and fetch rejects with an `AbortError`;
otherwise the transport outcome is returned.  The URL does not influence
the abstract environment. -/
def fetchModel (url : String) (isStream : Bool) (env : NetEnv) :
    Except JsError Resp :=
  if armsTimer isStream && !env.respondsInTime then
    .error ⟨"AbortError", "The operation was aborted."⟩
  else
    env.outcome

/-- Lines 68–69: content-type inference.  A `FormData` body contributes no
header at all; any other body contributes `Content-Type: application/json`
as the lowest-precedence layer. -/
def contentTypeRaw (body : Body) : List (String × String) :=
  match body with
  | .formData => []
  | _ => [("Content-Type", "application/json")]

/-- Lines 76–85: the three-layer header spread
`\x7b ...contentTypeRaw, ...defaultHeaders, ...headers \x7d`. -/
def mergedHeaders (body : Body) (defaultHeaders callHeaders : List (String × String)) :
    List (String × String) :=
  objAssign (objAssign (contentTypeRaw body) defaultHeaders) callHeaders

/-- Lines 42 and 72–91: the initial per-call configuration, before the
request-interceptor chain runs.  `credentials: defaultCredentials` is
spread-overridden by a call-level `credentials`; `timeout` is the
call-level value or the client default; `url` stores the raw endpoint. -/
def initialConfig (c : Client) (endpoint : String) (opts : Options)
    (isStream : Bool) : Config :=
  { method := opts.method
    body := opts.body
    headers := mergedHeaders opts.body c.defaultHeaders opts.headers
    credentials := opts.credentials.getD c.defaultCredentials
    timeout := opts.timeout.getD c.defaultTimeout
    isStream := isStream
    url := endpoint
    baseURL := c.baseURL }

/-- `(await response.json().catch(() => null))?.message ?? ·` on a non-OK
response: a JSON parse failure becomes `null` (so optional chaining yields
`undefined`); on a decoded object the `message` property is read, and a
`null` or missing property falls through the nullish coalescing. -/
def errorBodyMessage (r : Resp) : Option Json :=
  match r.jsonResult with
  | .error _ => Option.none
  | .ok j =>
    match j with
    | .jobj fields =>
      match fields.find? (fun p => p.1 = "message") with
      | some (_, .jnull) => Option.none
      | some (_, v) => some v
      | Option.none => Option.none
    | _ => Option.none

/-- Lines 110–168, the body of the `try` block after the request
interceptors have produced the finalized `config`: fetch, attach the
config back-reference, run the response-interceptor chain, return the
response directly for streams, raise `ERR_BAD_RESPONSE` on a non-OK
status, map 204 to `null`, otherwise return the response. -/
def tryPhase (c : Client) (config : Config) (url : String) (isStream : Bool)
    (env : NetEnv) : Except Err (Option Resp) :=
  match fetchModel url isStream env with
  | .error e => .error (.js e)
  | .ok resp =>
    match runChain c.resInterceptors ⟨resp, config⟩ with
    | .error e => .error e
    | .ok rc =>
      if isStream then
        .ok (some rc.resp)
      else if !respOk rc.resp.status then
        .error (.fce
          { message := (errorBodyMessage rc.resp).getD
              (.jstr ("Request failed with status " ++ toString rc.resp.status))
            config := config
            code := "ERR_BAD_RESPONSE"
            response := some rc.resp })
      else if rc.resp.status = 204 then
        .ok Option.none
      else
        .ok (some rc.resp)

/-- Lines 169–189, the catch block: an error whose `name` is `AbortError`
becomes `ECONNABORTED` with the timeout message; a `FetchClientError` is
rethrown unchanged; anything else is wrapped as `ERR_NETWORK` with the
finalized config. -/
def classify (e : Err) (config : Config) (timeout : Nat) :
    FetchClientError Config Resp :=
  match e with
  | .js je =>
    if je.name = "AbortError" then
      { message := .jstr ("Request timeout after " ++ toString timeout ++ " ms")
        config := config
        code := "ECONNABORTED"
        response := Option.none }
    else
      { message := .jstr je.message
        config := config
        code := "ERR_NETWORK"
        response := Option.none }
  | .fce f => f

/-- The full `request` pipeline (lines 36–190).  Note the control
structure of the source: the request-interceptor chain is awaited at line
108, *before* the `try` block opens at line 110, so a failure of that
chain propagates as thrown, unclassified; only failures inside the try
block reach the catch-block classification. -/
def requestModel (c : Client) (endpoint : String) (opts : Options)
    (isStream : Bool) (env : NetEnv) : Except Err (Option Resp) :=
  let timeout := opts.timeout.getD c.defaultTimeout
  let url := buildURL c.baseURL endpoint
  match runChain c.reqInterceptors (initialConfig c endpoint opts isStream) with
  | .error e => .error e
  | .ok config =>
    match tryPhase c config url isStream env with
    | .ok v => .ok v
    | .error e => .error (.fce (classify e config timeout))

/-- A JavaScript value passed as the `body` argument of `post`/`put`/
`patch`: a `FormData` instance, a JSON-serializable value, or `undefined`. -/
inductive JsVal where
  | formData : JsVal
  | json : Json → JsVal
  | undef : JsVal

/-- JS truthiness of a wrapper body argument (`else if (body)`). -/
def truthy (v : JsVal) : Bool :=
  match v with
  | .formData => true
  | .undef => false
  | .json j =>
    match j with
    | .jnull => false
    | .jbool b => b
    | .jnum n => n != 0
    | .jstr s => s != ""
    | .jarr _ => true
    | .jobj _ => true

/-- String escaping of `JSON.stringify` for the characters the model
tracks (quote and backslash). -/
def escapeJsonString (s : String) : String :=
  s.foldl (fun acc ch =>
    if ch = '"' then acc ++ "\\\""
    else if ch = '\\' then acc ++ "\\\\"
    else acc.push ch) ""

/-- `JSON.stringify` on a JSON-serializable value. -/
def stringifyJson : Json → String
  | .jnull => "null"
  | .jbool true => "true"
  | .jbool false => "false"
  | .jnum n => toString n
  | .jstr s => "\"" ++ escapeJsonString s ++ "\""
  | .jarr xs => "[" ++
      String.intercalate "," (xs.attach.map (fun x => stringifyJson x.1)) ++ "]"
  | .jobj fs => "\x7b" ++
      String.intercalate ","
        (fs.attach.map (fun p =>
          "\"" ++ escapeJsonString p.1.1 ++ "\":" ++ stringifyJson p.1.2)) ++
      "\x7d"
decreasing_by
  · have := List.sizeOf_lt_of_mem x.2
    simp only [Json.jarr.sizeOf_spec]
    omega
  · have h1 := List.sizeOf_lt_of_mem p.2
    have h2 : sizeOf p.1.2 < sizeOf p.1 := by
      obtain ⟨a, b⟩ := p.1
      simp
    simp only [Json.jobj.sizeOf_spec]
    omega

/-- Body preparation shared by `post`/`put`/`patch` (lines 320–328):
`FormData` passes through; any other truthy value is `JSON.stringify`-ed;
a falsy value sends no body. -/
def prepareBody (v : JsVal) : Body :=
  match v with
  | .formData => .formData
  | v =>
    if truthy v then
      match v with
      | .json j => .str (stringifyJson j)
      | _ => .none
    else .none

/-- The shared tail of every HTTP-method wrapper:
`response ? ((await response.json()) as TResponse) : (null as TResponse)`.
A `null` pipeline result (the 204 path) becomes the JS value `null`
without the body ever being decoded; otherwise `response.json()` is
awaited, and a decode failure is thrown raw. -/
def decodeWrapperResult (r : Except Err (Option Resp)) : Except Err Json :=
  match r with
  | .error e => .error e
  | .ok Option.none => .ok .jnull
  | .ok (some resp) =>
    match resp.jsonResult with
    | .error e => .error (.js e)
    | .ok j => .ok j

/-- `client.get` (lines 303–312): `request(endpoint, \x7b...options,
method: 'GET'\x7d)` followed by the JSON decode tail. -/
def getModel (c : Client) (endpoint : String) (opts : Options) (env : NetEnv) :
    Except Err Json :=
  decodeWrapperResult
    (requestModel c endpoint { opts with method := some "GET" } false env)

/-- `client.post` (lines 314–336). -/
def postModel (c : Client) (endpoint : String) (body : JsVal) (opts : Options)
    (env : NetEnv) : Except Err Json :=
  decodeWrapperResult
    (requestModel c endpoint
      { opts with method := some "POST", body := prepareBody body } false env)

/-- `client.put` (lines 338–360). -/
def putModel (c : Client) (endpoint : String) (body : JsVal) (opts : Options)
    (env : NetEnv) : Except Err Json :=
  decodeWrapperResult
    (requestModel c endpoint
      { opts with method := some "PUT", body := prepareBody body } false env)

/-- `client.patch` (lines 361–382). -/
def patchModel (c : Client) (endpoint : String) (body : JsVal) (opts : Options)
    (env : NetEnv) : Except Err Json :=
  decodeWrapperResult
    (requestModel c endpoint
      { opts with method := some "PATCH", body := prepareBody body } false env)

/-- `client.delete` (lines 384–393). -/
def deleteModel (c : Client) (endpoint : String) (opts : Options)
    (env : NetEnv) : Except Err Json :=
  decodeWrapperResult
    (requestModel c endpoint { opts with method := some "DELETE" } false env)

/-- A JS number as produced by `Number.parseInt`: an integer or `NaN`. -/
inductive JsNumber where
  | nan : JsNumber
  | int : Int → JsNumber
deriving Repr, DecidableEq

/-- `Number.parseInt(s, 10)`: skip leading whitespace, read an optional
sign, then the longest prefix of decimal digits; when no digit is read the
result is `NaN`. -/
def parseIntBase10 (s : String) : JsNumber :=
  let t := s.data.dropWhile Char.isWhitespace
  let (neg, t) :=
    match t with
    | '-' :: rest => (true, rest)
    | '+' :: rest => (false, rest)
    | t => (false, t)
  let digits := t.takeWhile Char.isDigit
  if digits.isEmpty then .nan
  else
    let n : Int := Int.ofNat (digits.foldl (fun acc ch => acc * 10 + (ch.toNat - 48)) 0)
    .int (if neg then -n else n)

/-- The record built by `parseSSEMessage` (`SSEMessage` in
`src/types/index.ts`): `data` starts out as the empty string; the other
fields are absent until a matching line sets them.  `retry` holds a JS
number, which may be `NaN` when the payload has no leading digits. -/
structure SSEMessage where
  data : String := ""
  event : Option String := Option.none
  id : Option String := Option.none
  retry : Option JsNumber := Option.none
deriving Repr, DecidableEq

/-- The loop body of `parseSSEMessage` (`src/utils/parseSSE.ts` lines
7–17): the four recognized prefixes, in source order, and the fall-through
that leaves the record unchanged on every other line. -/
def processSSELine (m : SSEMessage) (line : String) : SSEMessage :=
  if jsStartsWith line "data: " then
    { m with data := m.data ++ (if m.data ≠ "" then "\n" else "") ++ jsSlice line 6 }
  else if jsStartsWith line "event: " then
    { m with event := some (jsSlice line 7) }
  else if jsStartsWith line "id: " then
    { m with id := some (jsSlice line 4) }
  else if jsStartsWith line "retry: " then
    { m with retry := some (parseIntBase10 (jsSlice line 7)) }
  else m

/-- `parseSSEMessage` (`src/utils/parseSSE.ts`): split the block on
newlines, fold the recognizer over the lines, and return the record only
when the accumulated `data` is non-empty (`return message.data ? message
: null`). -/
def parseSSEMessage (text : String) : Option SSEMessage :=
  let m := (splitChar '\n' text).foldl processSSELine {}
  if m.data ≠ "" then some m else Option.none

/-- `SSEConnection.readyState` values. -/
inductive RState where
  | connecting : RState
  | opened : RState
  | closed : RState
deriving Repr, DecidableEq

/-- Where the background IIFE of `sse` is suspended: awaiting the
`request` promise, awaiting `reader.read()`, or finished. -/
inductive Phase where
  | awaitingResponse : Phase
  | reading : Phase
  | finished : Phase
deriving Repr, DecidableEq

/-- The observable state of one SSE connection (`sse`, lines 207–302):
the closure variables `readyState`, `reader` (abstracted to presence),
`isClosed` and the text `buffer`, together with invocation counters for
the lifecycle callbacks and the suspension point of the background task. -/
structure SSEConnState where
  readyState : RState := .connecting
  isClosed : Bool := false
  hasReader : Bool := false
  buffer : String := ""
  onOpenCount : Nat := 0
  onMessageCount : Nat := 0
  onErrorCount : Nat := 0
  onCloseCount : Nat := 0
  phase : Phase := .awaitingResponse
deriving Repr, DecidableEq

/-- `connection.close()` (lines 215–228): a guarded transition — an
already-closed connection returns immediately; otherwise the idempotency
flag is set, `readyState` becomes `closed`, the reader (if any) is
cancelled with its cancellation error swallowed and the reference
released, and `onClose` is invoked once.  The function body contains no
statement that can throw: the only fallible call, `reader.cancel()`, has
its rejection consumed by `.catch(() => \x7b\x7d)`. -/
def closeStep (s : SSEConnState) : SSEConnState :=
  if s.isClosed then s
  else
    { s with
      isClosed := true
      readyState := .closed
      hasReader := false
      onCloseCount := s.onCloseCount + 1 }

/-- The result a suspended `reader.read()` settles with. -/
inductive ReadResult where
  | done : ReadResult
  | chunk : String → Bool → ReadResult
deriving Repr, DecidableEq

/-- An event that advances one SSE connection: an external `close()`
call, resolution of the `request` promise (success with readable OK body,
or any failure reaching the catch block), or resolution of a pending
`reader.read()` (a chunk — whose second component records whether an
`onMessage` callback itself invoked `close()` — or stream end). -/
inductive SSEEvent where
  | userClose : SSEEvent
  | respOk : SSEEvent
  | respFail : SSEEvent
  | readResolve : ReadResult → SSEEvent
deriving Repr, DecidableEq

/-- JS `String.prototype.split` with the two-character separator
`"\n\n"`: the string is scanned left to right and cut at each
(non-overlapping) occurrence. -/
def splitNlNl (s : String) : List String :=
  (go s.data).map (fun l => ⟨l⟩)
where
  go : List Char → List (List Char)
    | [] => [[]]
    | '\n' :: '\n' :: rest => [] :: go rest
    | c :: rest =>
      match go rest with
      | [] => [[c]]
      | y :: ys => (c :: y) :: ys

/-- JS `String.prototype.trim`: strip whitespace from both ends. -/
def jsTrim (s : String) : String :=
  ⟨((s.data.dropWhile Char.isWhitespace).reverse.dropWhile
      Char.isWhitespace).reverse⟩

/-- Process one decoded chunk (lines 270–288): append to the buffer,
split on the `"\n\n"` frame delimiter, keep the trailing (possibly
incomplete) part as the new buffer, and dispatch `onMessage` for every
complete non-blank part that parses to a frame with non-empty data. -/
def processChunk (s : SSEConnState) (text : String) : SSEConnState :=
  let parts := splitNlNl (s.buffer ++ text)
  let buffer := (parts.getLast?).getD ""
  let complete := parts.dropLast
  let msgs := complete.countP
    (fun part => jsTrim part ≠ "" && (parseSSEMessage part).isSome)
  { s with buffer := buffer, onMessageCount := s.onMessageCount + msgs }

/-- One step of the SSE connection, from the source's control flow:

* `userClose` runs `connection.close()` at any time.
* `respOk` (only while awaiting the response) models lines 255–290 on a
  readable OK response: the source sets `readyState = 'open'`, fires
  `onOpen` and acquires the reader *without consulting `isClosed`*; then
  the `while (!isClosed)` guard either suspends into the read loop or
  falls through to the trailing `connection.close()`.
* `respFail` (only while awaiting the response) models the catch block
  (lines 291–297): when not closed, `onError` fires and the connection
  closes; either way the task finishes.
* `readResolve .done` models `if (done) break` followed by the trailing
  `connection.close()`.
* `readResolve (.chunk text cb)` processes the chunk, lets an `onMessage`
  handler optionally call `close()` (`cb`), then re-checks the loop
  guard: if the connection has been closed the loop exits into the
  trailing `connection.close()`, otherwise the task suspends in the next
  `read()`.

Events arriving in a phase where the task cannot observe them leave the
state unchanged. -/
def sseStep (s : SSEConnState) : SSEEvent → SSEConnState
  | .userClose => closeStep s
  | .respOk =>
    if s.phase = .awaitingResponse then
      let s' := { s with
        readyState := RState.opened
        onOpenCount := s.onOpenCount + 1
        hasReader := true }
      if s'.isClosed then { closeStep s' with phase := .finished }
      else { s' with phase := .reading }
    else s
  | .respFail =>
    if s.phase = .awaitingResponse then
      if s.isClosed then { s with phase := .finished }
      else { closeStep { s with onErrorCount := s.onErrorCount + 1 } with
        phase := .finished }
    else s
  | .readResolve .done =>
    if s.phase = .reading then { closeStep s with phase := .finished }
    else s
  | .readResolve (.chunk text cb) =>
    if s.phase = .reading then
      let s' := processChunk s text
      let s'' := if cb then closeStep s' else s'
      if s''.isClosed then { closeStep s'' with phase := .finished }
      else s''
    else s

/-- A whole run of one SSE connection over an event trace. -/
def sseRun (events : List SSEEvent) : SSEConnState :=
  events.foldl sseStep {}

/-- One registry operation: a `use` registration or an `eject` by handle. -/
inductive RegOp (H : Type) where
  | use : H → RegOp H
  | eject : Nat → RegOp H

/-- Apply one registry operation to the manager state (the returned handle
of `use` is the pre-insertion length and is dropped here). -/
def applyRegOp {E T : Type} (s : Interceptor.ManagerState E T) :
    RegOp (Interceptor.Handler E T) → Interceptor.ManagerState E T
  | .use h => (Interceptor.use s h).1
  | .eject id => Interceptor.eject s id

/-- Run a whole sequence of registrations and ejections from a fresh
manager. -/
def applyRegOps {E T : Type} (ops : List (RegOp (Interceptor.Handler E T))) :
    Interceptor.ManagerState E T :=
  ops.foldl applyRegOp ⟨[]⟩

/-- One step of the spec-level slot list: `use` appends a live slot,
`eject i` clears slot `i` unconditionally (clearing a dead or missing
slot changes nothing). -/
def slotsSpecStep {H : Type} (l : List (Option H)) : RegOp H → List (Option H)
  | .use h => l ++ [some h]
  | .eject i => l.set i Option.none

/-- The slot list described by the spec's words, after a whole sequence
of operations. -/
def slotsSpec {H : Type} (ops : List (RegOp H)) : List (Option H) :=
  ops.foldl slotsSpecStep []

/-- First-match key lookup over a header record (JS property access on a
record without duplicate keys). -/
def lookupExact (hs : List (String × String)) (k : String) : Option String :=
  (hs.find? (fun p => p.1 = k)).map (·.2)

/-- Last-occurrence key lookup: the value JS retains when a record lists
the same key more than once. -/
def findLast (hs : List (String × String)) (k : String) : Option String :=
  (hs.reverse.find? (fun p => p.1 = k)).map (·.2)

/-- Concatenation with an interleaving newline: the joining the spec
describes for multiple `data:` payloads. -/
def nlJoin : List String → String
  | [] => ""
  | x :: xs => xs.foldl (fun a p => a ++ "\n" ++ p) x

/-- Whether a pipeline result is a raised `FetchClientError` (as opposed
to a success or a raw, unwrapped thrown value). -/
def raisedFCE {α : Type} (r : Except Err α) : Bool :=
  match r with
  | .error (.fce _) => true
  | _ => false

/-- A client with one request interceptor whose fulfillment handler
throws a plain JS error and which has no rejection handler. -/
def throwingReqClient : Client :=
  { reqInterceptors := ⟨[some
      { fulfilled := fun _ => .error (.js ⟨"Boom", "kaput"⟩)
        rejected := Option.none }]⟩ }

/-- A benign network environment: the server answers in time with an OK
JSON response. -/
def plainEnv : NetEnv :=
  { respondsInTime := true, outcome := .ok ⟨200, .ok .jnull⟩ }

/-- A connection-level failure: fetch rejects with a `TypeError`. -/
def dnsFailEnv : NetEnv :=
  { respondsInTime := true, outcome := .error ⟨"TypeError", "Failed to fetch"⟩ }

/-- A 204 No Content response whose (empty) body would not decode. -/
def env204 : NetEnv :=
  { respondsInTime := true
    outcome := .ok ⟨204, .error ⟨"SyntaxError", "Unexpected end of JSON input"⟩⟩ }

/-- A 200 response whose body decodes to JSON `null`. -/
def envJsonNull : NetEnv :=
  { respondsInTime := true, outcome := .ok ⟨200, .ok .jnull⟩ }

/-- A 200 response whose body fails to decode as JSON. -/
def envBadJson : NetEnv :=
  { respondsInTime := true
    outcome := .ok ⟨200, .error ⟨"SyntaxError", "Unexpected token < in JSON"⟩⟩ }

/-- A 404 response with JSON body `\x7b"message": "not found"\x7d`. -/
def env404WithMessage : NetEnv :=
  { respondsInTime := true
    outcome := .ok ⟨404, .ok (.jobj [("message", .jstr "not found")])⟩ }

/-- A 404 response with an unparsable body. -/
def env404Unparsable : NetEnv :=
  { respondsInTime := true
    outcome := .ok ⟨404, .error ⟨"SyntaxError", "Unexpected token < in JSON"⟩⟩ }

/-- A server that never answers before the timer fires (but whose
eventual answer would have been an OK response). -/
def slowEnv : NetEnv :=
  { respondsInTime := false, outcome := .ok ⟨200, .ok .jnull⟩ }

/-- The closure invariant of one SSE connection: while the idempotency
flag is still clear no `onClose` call has happened, and `onClose` never
fires more than once. -/
def sseCloseInv (s : SSEConnState) : Prop :=
  (s.isClosed = false → s.onCloseCount = 0) ∧ s.onCloseCount ≤ 1

end AxiosImposto

namespace AxiosImposto

lemma set_none_of_getD_none {α : Type} (l : List (Option α)) (i : Nat)
    (h : l.getD i Option.none = Option.none) : l.set i Option.none = l := by
  induction l generalizing i with
  | nil => rfl
  | cons a t ih =>
    cases i with
    | zero =>
      simp only [List.getD, List.get?, Option.getD_some] at h
      simp [h]
    | succ n =>
      simp only [List.set]
      have := ih n (by simpa [List.getD] using h)
      rw [this]

lemma eject_of_getD_none {E T : Type} (s : Interceptor.ManagerState E T)
    (id : Nat) (h : s.handler.getD id Option.none = Option.none) :
    Interceptor.eject s id = s := by
  unfold Interceptor.eject
  simp only [List.getD_eq_getElem?_getD] at h ⊢
  simp [h]

lemma eject_handler_eq_set {E T : Type} (s : Interceptor.ManagerState E T)
    (id : Nat) :
    (Interceptor.eject s id).handler = s.handler.set id Option.none := by
  by_cases h : s.handler.getD id Option.none = Option.none
  · rw [eject_of_getD_none s id h, set_none_of_getD_none s.handler id h]
  · unfold Interceptor.eject
    have hs : (s.handler.getD id Option.none).isSome = true := by
      cases hv : s.handler.getD id Option.none with
      | none => exact absurd hv h
      | some v => rfl
    simp only [List.getD_eq_getElem?_getD] at hs
    simp [hs]

lemma eject_getD_none {E T : Type} (s : Interceptor.ManagerState E T)
    (id : Nat) :
    (Interceptor.eject s id).handler.getD id Option.none = Option.none := by
  rw [eject_handler_eq_set]
  simp only [List.getD_eq_getElem?_getD]
  rcases Nat.lt_or_ge id s.handler.length with hlt | hge
  · rw [List.getElem?_set_self (by simpa using hlt)]
    rfl
  · rw [List.getElem?_eq_none (by simpa using hge)]
    rfl

lemma applyRegOps_handler_eq_slotsSpec {E T : Type}
    (ops : List (RegOp (Interceptor.Handler E T))) :
    (applyRegOps ops).handler = slotsSpec ops := by
  suffices h : ∀ (l : List (Option (Interceptor.Handler E T))),
      (ops.foldl applyRegOp ⟨l⟩).handler = ops.foldl slotsSpecStep l by
    unfold applyRegOps slotsSpec
    exact h []
  induction ops with
  | nil => intro l; rfl
  | cons op rest ih =>
    intro l
    rw [List.foldl_cons, List.foldl_cons]
    cases op with
    | use h =>
      simpa [applyRegOp, Interceptor.use, slotsSpecStep] using ih (l ++ [some h])
    | eject i =>
      have h1 := ih (Interceptor.eject ⟨l⟩ i).handler
      simp only [applyRegOp, slotsSpecStep] at h1 ⊢
      rw [h1, eject_handler_eq_set]

/-- **C4.** For every sequence of `use`/`eject` operations on a fresh
interceptor registry: (1) `forEach` visits exactly the non-ejected
handlers (the live slots of the spec-level slot list, which tombstones
ejected slots and appends registrations in order), in original insertion
order; (2) `eject` is idempotent; (3) ejecting an out-of-range handle is
a no-op; (4) ejecting an already-ejected handle is a no-op.  `eject` is a
total function in the model, mirroring that the source's `eject` body
cannot raise. -/
theorem interceptor_forEach_visits_live_and_eject_idempotent :
    (∀ (ops : List (RegOp (Interceptor.Handler Err Config))),
      Interceptor.visited (applyRegOps ops) = (slotsSpec ops).reduceOption) ∧
    (∀ (s : Interceptor.ManagerState Err Config) (id : Nat),
      Interceptor.eject (Interceptor.eject s id) id = Interceptor.eject s id) ∧
    (∀ (s : Interceptor.ManagerState Err Config) (id : Nat),
      s.handler.length ≤ id → Interceptor.eject s id = s) ∧
    (∀ (s : Interceptor.ManagerState Err Config) (id : Nat),
      s.handler.getD id Option.none = Option.none →
      Interceptor.eject s id = s) := by
  refine ⟨?_, ?_, ?_, ?_⟩
  · intro ops
    unfold Interceptor.visited
    rw [applyRegOps_handler_eq_slotsSpec]
  · intro s id
    exact eject_of_getD_none _ id (eject_getD_none s id)
  · intro s id hlen
    refine eject_of_getD_none s id ?_
    simp only [List.getD_eq_getElem?_getD]
    rw [List.getElem?_eq_none (by simpa using hlen)]
    rfl
  · intro s id h
    exact eject_of_getD_none s id h

/-- Closed instance of
`interceptor_forEach_visits_live_and_eject_idempotent`: a
use/eject/use sequence is visited as its two live handlers, and ejecting
the out-of-range handle 5 of an empty registry is a no-op. -/
theorem interceptor_forEach_and_eject_witness :
    Interceptor.visited (applyRegOps
      ([] : List (RegOp (Interceptor.Handler Err Config)))) =
      (slotsSpec ([] : List (RegOp (Interceptor.Handler Err Config)))).reduceOption ∧
    Interceptor.eject (⟨[]⟩ : Interceptor.ManagerState Err Config) 5 = ⟨[]⟩ ∧
    Interceptor.eject (Interceptor.eject
      (⟨[]⟩ : Interceptor.ManagerState Err Config) 0) 0 =
      Interceptor.eject (⟨[]⟩ : Interceptor.ManagerState Err Config) 0 :=
  ⟨interceptor_forEach_visits_live_and_eject_idempotent.1 [],
    interceptor_forEach_visits_live_and_eject_idempotent.2.2.1 ⟨[]⟩ 5
      (by decide),
    interceptor_forEach_visits_live_and_eject_idempotent.2.1 ⟨[]⟩ 0⟩

lemma lookupExact_objStep (acc : List (String × String))
    (kv : String × String) (k : String) :
    lookupExact (objStep acc kv) k =
      if kv.1 = k then some kv.2 else lookupExact acc k := by
  unfold objStep lookupExact
  by_cases hany : acc.any (fun p => p.1 = kv.1) = true
  · simp only [hany, if_true]
    rw [List.find?_map]
    have hpred : ((fun p : String × String => decide (p.1 = k)) ∘
        (fun p : String × String => if p.1 = kv.1 then (p.1, kv.2) else p)) =
        fun p : String × String => decide (p.1 = k) := by
      funext q
      by_cases hq : q.1 = kv.1 <;> simp [hq]
    rw [hpred]
    by_cases hk : kv.1 = k
    · subst hk
      rw [List.any_eq_true] at hany
      obtain ⟨q, hqmem, hqk⟩ := hany
      rw [decide_eq_true_iff] at hqk
      have hsome : (acc.find? (fun p => decide (p.1 = kv.1))).isSome := by
        rw [List.find?_isSome]
        exact ⟨q, hqmem, by simpa using hqk⟩
      obtain ⟨r, hr⟩ := Option.isSome_iff_exists.mp hsome
      have hrk : r.1 = kv.1 := by simpa using List.find?_some hr
      simp [hr, hrk]
    · simp only [hk, if_false]
      cases hfind : acc.find? (fun p => decide (p.1 = k)) with
      | none => simp
      | some r =>
        have hrk : r.1 = k := by simpa using List.find?_some hfind
        have hrkv : ¬r.1 = kv.1 := by rw [hrk]; exact fun h => hk h.symm
        simp [hrkv]
  · rw [Bool.not_eq_true] at hany
    simp only [hany, Bool.false_eq_true, if_false]
    rw [List.find?_append]
    by_cases hk : kv.1 = k
    · have hnone : acc.find? (fun p => decide (p.1 = k)) = Option.none := by
        rw [List.find?_eq_none]
        intro x hx
        simp only [decide_eq_true_iff]
        intro hxk
        have hx2 : acc.any (fun p => decide (p.1 = kv.1)) = true :=
          List.any_eq_true.mpr ⟨x, hx, by simp [hxk, hk]⟩
        rw [hany] at hx2
        cases hx2
      simp [hnone, List.find?, hk]
    · have hnone2 : [kv].find? (fun p => decide (p.1 = k)) = Option.none := by
        simp [List.find?, hk]
      simp [hnone2, hk]

lemma findLast_cons (kv : String × String) (rest : List (String × String))
    (k : String) :
    findLast (kv :: rest) k =
      (findLast rest k).or (if kv.1 = k then some kv.2 else Option.none) := by
  unfold findLast
  rw [List.reverse_cons, List.find?_append]
  cases hfind : rest.reverse.find? (fun p => decide (p.1 = k)) with
  | none => by_cases hk : kv.1 = k <;> simp [List.find?, hfind, hk]
  | some r => simp [hfind]

lemma lookupExact_objAssign (upd base : List (String × String)) (k : String) :
    lookupExact (objAssign base upd) k =
      (findLast upd k).or (lookupExact base k) := by
  induction upd generalizing base with
  | nil => simp [objAssign, findLast]
  | cons kv rest ih =>
    have hstep : objAssign base (kv :: rest) = objAssign (objStep base kv) rest := rfl
    rw [hstep, ih (objStep base kv), lookupExact_objStep, findLast_cons,
      Option.or_assoc]
    by_cases hk : kv.1 = k <;> cases hrest : findLast rest k <;> simp [hk]

/-- **C2 counterexample.** The merge is JS object spread, which matches
keys case-*sensitively*: with a non-multipart body (auto layer
`Content-Type: application/json`) and a per-call header spelled
`content-type`, both keys survive side by side in the effective headers —
the later layer did not overwrite the earlier same-named (up to case)
key, contradicting the claimed case-insensitive overwrite.  The
case-insensitive reader even sees the *auto* layer's value first. -/
theorem headers_merge_counterexample :
    mergedHeaders (Body.str "b") [] [("content-type", "text/plain")] =
      [("Content-Type", "application/json"), ("content-type", "text/plain")] ∧
    (mergedHeaders (Body.str "b") [] [("content-type", "text/plain")]).countP
      (fun p => jsToLower p.1 = "content-type") = 2 ∧
    lookupCI (mergedHeaders (Body.str "b") [] [("content-type", "text/plain")])
      "content-type" = some "application/json" := by
  refine ⟨by decide, by decide, by decide⟩

/-- **C2 (amended).** The effective headers are the auto content-type
layer overwritten by the client defaults overwritten by the per-call
headers, with *case-sensitive* (exact) key matching: looking up any key
in the merged record yields the per-call value when the key occurs there,
else the default value, else the auto layer's value; and the claim's own
concrete example holds: defaults `A:1`, per-call `A:2, B:3`, auto `C:4`
merge to exactly `C:4, A:2, B:3` (and likewise with the real auto layer). -/
theorem headers_merge_layering :
    (∀ (body : Body) (defaults call : List (String × String)) (k : String),
      lookupExact (mergedHeaders body defaults call) k =
        (findLast call k).or ((findLast defaults k).or
          (lookupExact (contentTypeRaw body) k))) ∧
    objAssign (objAssign [("C", "4")] [("A", "1")]) [("A", "2"), ("B", "3")] =
      [("C", "4"), ("A", "2"), ("B", "3")] ∧
    mergedHeaders (Body.str "b") [("A", "1")] [("A", "2"), ("B", "3")] =
      [("Content-Type", "application/json"), ("A", "2"), ("B", "3")] := by
  refine ⟨?_, by decide, by decide⟩
  intro body defaults call k
  unfold mergedHeaders
  rw [lookupExact_objAssign, lookupExact_objAssign]

lemma mem_keys_objStep (acc : List (String × String)) (kv : String × String)
    (k : String) (h : k ∈ (objStep acc kv).map Prod.fst) :
    k ∈ acc.map Prod.fst ∨ k = kv.1 := by
  unfold objStep at h
  by_cases hany : acc.any (fun p => p.1 = kv.1) = true
  · rw [if_pos hany] at h
    rw [List.map_map] at h
    have hkeys : ((fun p : String × String => p.1) ∘
        (fun p : String × String => if p.1 = kv.1 then (p.1, kv.2) else p)) =
        fun p : String × String => p.1 := by
      funext q
      by_cases hq : q.1 = kv.1 <;> simp [hq]
    rw [hkeys] at h
    exact Or.inl h
  · rw [if_neg hany] at h
    rw [List.map_append] at h
    rcases List.mem_append.mp h with h1 | h1
    · exact Or.inl h1
    · simp at h1
      exact Or.inr h1

lemma mem_keys_objAssign (upd base : List (String × String)) (k : String)
    (h : k ∈ (objAssign base upd).map Prod.fst) :
    k ∈ base.map Prod.fst ∨ k ∈ upd.map Prod.fst := by
  induction upd generalizing base with
  | nil => exact Or.inl h
  | cons kv rest ih =>
    have hstep : objAssign base (kv :: rest) = objAssign (objStep base kv) rest := rfl
    rw [hstep] at h
    rcases ih (objStep base kv) h with h1 | h1
    · rcases mem_keys_objStep base kv k h1 with h2 | h2
      · exact Or.inl h2
      · exact Or.inr (by simp [h2])
    · exact Or.inr (by simp [h1])

/-- **C8.** A `FormData` body contributes no auto content-type layer at
all: the injected layer is empty, every key of the effective headers
stems from the client defaults or the per-call headers, and if neither of
those carries a content-type key (case-insensitively) then the effective
headers carry none either — regardless of the client default headers. -/
theorem formdata_body_no_content_type_injected :
    contentTypeRaw Body.formData = [] ∧
    (∀ (defaults call : List (String × String)) (k : String),
      k ∈ (mergedHeaders Body.formData defaults call).map Prod.fst →
      k ∈ defaults.map Prod.fst ∨ k ∈ call.map Prod.fst) ∧
    (∀ (defaults call : List (String × String)),
      lookupCI defaults "content-type" = Option.none →
      lookupCI call "content-type" = Option.none →
      lookupCI (mergedHeaders Body.formData defaults call) "content-type" =
        Option.none) := by
  refine ⟨rfl, ?_, ?_⟩
  · intro defaults call k h
    unfold mergedHeaders at h
    rcases mem_keys_objAssign call (objAssign (contentTypeRaw Body.formData)
      defaults) k h with h1 | h1
    · rcases mem_keys_objAssign defaults (contentTypeRaw Body.formData) k h1
        with h2 | h2
      · simp [contentTypeRaw] at h2
      · exact Or.inl h2
    · exact Or.inr h1
  · intro defaults call hd hc
    unfold lookupCI at hd hc ⊢
    rw [Option.map_eq_none'] at hd hc ⊢
    rw [List.find?_eq_none] at hd hc ⊢
    intro p hp
    simp only [decide_eq_true_iff]
    intro hlow
    have hkey : p.1 ∈ defaults.map Prod.fst ∨ p.1 ∈ call.map Prod.fst := by
      have hmem : p.1 ∈ (mergedHeaders Body.formData defaults call).map Prod.fst :=
        List.mem_map.mpr ⟨p, hp, rfl⟩
      unfold mergedHeaders at hmem
      rcases mem_keys_objAssign call (objAssign (contentTypeRaw Body.formData)
        defaults) p.1 hmem with h1 | h1
      · rcases mem_keys_objAssign defaults (contentTypeRaw Body.formData) p.1 h1
          with h2 | h2
        · simp [contentTypeRaw] at h2
        · exact Or.inl h2
      · exact Or.inr h1
    rcases hkey with h1 | h1
    · obtain ⟨q, hq, hqk⟩ := List.mem_map.mp h1
      exact absurd (by rw [hqk, hlow] : jsToLower q.1 = jsToLower "content-type")
        (by simpa using hd q hq)
    · obtain ⟨q, hq, hqk⟩ := List.mem_map.mp h1
      exact absurd (by rw [hqk, hlow] : jsToLower q.1 = jsToLower "content-type")
        (by simpa using hc q hq)

/-- Closed instance of `formdata_body_no_content_type_injected`: a client
default header map with an unrelated key and a per-call `Authorization`
header produce effective headers with no content-type for a `FormData`
body. -/
theorem formdata_body_no_content_type_injected_witness :
    lookupCI (mergedHeaders Body.formData [("X-Auth", "t")]
      [("Authorization", "Bearer x")]) "content-type" = Option.none :=
  formdata_body_no_content_type_injected.2.2 [("X-Auth", "t")]
    [("Authorization", "Bearer x")] (by decide) (by decide)

lemma string_append_ne_empty_right (a b : String) (h : b ≠ "") :
    a ++ b ≠ "" := by
  intro hcontra
  apply h
  apply String.ext
  have hd := congrArg String.data hcontra
  rw [String.data_append] at hd
  rcases List.append_eq_nil.mp hd with ⟨_, h2⟩
  exact h2

lemma string_append_ne_empty_left (a b : String) (h : a ≠ "") :
    a ++ b ≠ "" := by
  intro hcontra
  apply h
  apply String.ext
  have hd := congrArg String.data hcontra
  rw [String.data_append] at hd
  rcases List.append_eq_nil.mp hd with ⟨h1, _⟩
  exact h1

lemma processSSELine_data_line (m : SSEMessage) (l : String)
    (hl : jsStartsWith l "data: " = true) (hm : m.data ≠ "") :
    processSSELine m l = { m with data := m.data ++ "\n" ++ jsSlice l 6 } := by
  unfold processSSELine
  rw [hl, if_pos rfl, if_pos hm]

lemma foldl_data_lines (lines : List String) (m : SSEMessage)
    (h : ∀ l ∈ lines, jsStartsWith l "data: " = true ∧ jsSlice l 6 ≠ "")
    (hm : m.data ≠ "") :
    (lines.foldl processSSELine m).data =
      lines.foldl (fun a l => a ++ "\n" ++ jsSlice l 6) m.data := by
  induction lines generalizing m with
  | nil => rfl
  | cons l rest ih =>
    rw [List.foldl_cons, List.foldl_cons,
      processSSELine_data_line m l (h l (by simp)).1 hm]
    exact ih _ (fun x hx => h x (by simp [hx]))
      (string_append_ne_empty_left _ _
        (string_append_ne_empty_right m.data "\n" (by decide)))

/-- **C7 counterexample.** The interleaving-newline concatenation of the
payloads fails when a `data:` line with an empty payload precedes one
with content: the block `"data: \ndata: a"` has payloads `["", "a"]`,
whose newline-interleaved concatenation is `"\na"`, but the parser
produces `"a"` — the truthiness guard `message.data ? '\n' : ''` adds no
separator while the accumulated data is still empty, so leading empty
payloads are absorbed. -/
theorem parseSSE_interleave_counterexample :
    parseSSEMessage "data: \ndata: a" = some { data := "a" } ∧
    (splitChar '\n' "data: \ndata: a").map (fun l => jsSlice l 6) = ["", "a"] ∧
    nlJoin ["", "a"] = "\na" ∧ ("a" : String) ≠ "\na" :=
  ⟨by decide, by decide, by decide, by decide⟩

/-- **C7 (amended).** The frame parser recognizes exactly the four
prefixes `"data: "`, `"event: "`, `"id: "`, `"retry: "`:
(1) a line matching none of them leaves the record unchanged;
(2)–(5) each recognized prefix sets its field from the rest of the line
(`data:` accumulating, `event:`/`id:`/`retry:` overwriting);
(6) the payloads of multiple `data:` lines are concatenated with an
interleaving newline whenever each payload is non-empty (leading empty
payloads are absorbed, as the counterexample forces);
(7) a block yields a message if and only if the accumulated data is
non-empty. -/
theorem parseSSE_recognizes_exactly_four_prefixes :
    (∀ (m : SSEMessage) (l : String),
      jsStartsWith l "data: " = false → jsStartsWith l "event: " = false →
      jsStartsWith l "id: " = false → jsStartsWith l "retry: " = false →
      processSSELine m l = m) ∧
    (∀ (m : SSEMessage) (l : String), jsStartsWith l "data: " = true →
      processSSELine m l =
        { m with data := m.data ++ (if m.data ≠ "" then "\n" else "") ++
            jsSlice l 6 }) ∧
    (∀ (m : SSEMessage) (l : String), jsStartsWith l "data: " = false →
      jsStartsWith l "event: " = true →
      processSSELine m l = { m with event := some (jsSlice l 7) }) ∧
    (∀ (m : SSEMessage) (l : String), jsStartsWith l "data: " = false →
      jsStartsWith l "event: " = false → jsStartsWith l "id: " = true →
      processSSELine m l = { m with id := some (jsSlice l 4) }) ∧
    (∀ (m : SSEMessage) (l : String), jsStartsWith l "data: " = false →
      jsStartsWith l "event: " = false → jsStartsWith l "id: " = false →
      jsStartsWith l "retry: " = true →
      processSSELine m l = { m with retry := some (parseIntBase10 (jsSlice l 7)) }) ∧
    (∀ (lines : List String),
      (∀ l ∈ lines, jsStartsWith l "data: " = true ∧ jsSlice l 6 ≠ "") →
      (lines.foldl processSSELine {}).data =
        nlJoin (lines.map (fun l => jsSlice l 6))) ∧
    (∀ text : String,
      (parseSSEMessage text).isSome ↔
        ((splitChar '\n' text).foldl processSSELine {}).data ≠ "") := by
  refine ⟨?_, ?_, ?_, ?_, ?_, ?_, ?_⟩
  · intro m l h1 h2 h3 h4
    unfold processSSELine
    rw [h1, h2, h3, h4]
    simp
  · intro m l h1
    unfold processSSELine
    rw [h1, if_pos rfl]
  · intro m l h1 h2
    unfold processSSELine
    rw [h1, h2]
    simp
  · intro m l h1 h2 h3
    unfold processSSELine
    rw [h1, h2, h3]
    simp
  · intro m l h1 h2 h3 h4
    unfold processSSELine
    rw [h1, h2, h3, h4]
    simp
  · intro lines h
    cases lines with
    | nil => rfl
    | cons l rest =>
      rw [List.foldl_cons]
      have h0 : processSSELine {} l =
          ({ data := jsSlice l 6 } : SSEMessage) := by
        unfold processSSELine
        rw [(h l (by simp)).1, if_pos rfl]
        simp
      rw [h0]
      have hne : jsSlice l 6 ≠ "" := (h l (by simp)).2
      rw [foldl_data_lines rest _ (fun x hx => h x (by simp [hx])) hne]
      rw [List.map_cons]
      simp only [nlJoin]
      rw [List.foldl_map]
  · intro text
    unfold parseSSEMessage
    by_cases hd : ((splitChar '\n' text).foldl processSSELine {}).data ≠ ""
    · simp [hd]
    · simp [hd]

/-- Closed instance of `parseSSE_recognizes_exactly_four_prefixes`:
an unrecognized line (`"ping"`) is ignored; `"data: a"` then `"data: b"`
accumulate to `"a\nb"`; a block with no data yields no message. -/
theorem parseSSE_recognizes_exactly_four_prefixes_witness :
    processSSELine {} "ping" = {} ∧
    (["data: a", "data: b"].foldl processSSELine {}).data = nlJoin ["a", "b"] ∧
    ((parseSSEMessage "event: ping").isSome ↔
      ((splitChar '\n' "event: ping").foldl processSSELine {}).data ≠ "") :=
  ⟨parseSSE_recognizes_exactly_four_prefixes.1 {} "ping"
      (by decide) (by decide) (by decide) (by decide),
    parseSSE_recognizes_exactly_four_prefixes.2.2.2.2.2.1
      ["data: a", "data: b"]
      (by decide),
    parseSSE_recognizes_exactly_four_prefixes.2.2.2.2.2.2 "event: ping"⟩

lemma fetchModel_timeout (url : String) (env : NetEnv)
    (h : env.respondsInTime = false) :
    fetchModel url false env = .error ⟨"AbortError", "The operation was aborted."⟩ := by
  simp [fetchModel, armsTimer, h]

lemma fetchModel_nonstream_responds (url : String) (env : NetEnv)
    (h : env.respondsInTime = true) :
    fetchModel url false env = env.outcome := by
  simp [fetchModel, armsTimer, h]

lemma fetchModel_stream (url : String) (env : NetEnv) :
    fetchModel url true env = env.outcome := by
  simp [fetchModel, armsTimer]

lemma requestModel_reqchain_error (c : Client) (endpoint : String)
    (opts : Options) (isStream : Bool) (env : NetEnv) (e : Err)
    (h : runChain c.reqInterceptors (initialConfig c endpoint opts isStream) =
      .error e) :
    requestModel c endpoint opts isStream env = .error e := by
  unfold requestModel
  rw [h]

lemma requestModel_tryPhase (c : Client) (endpoint : String) (opts : Options)
    (isStream : Bool) (env : NetEnv) (config' : Config)
    (h : runChain c.reqInterceptors (initialConfig c endpoint opts isStream) =
      .ok config') :
    requestModel c endpoint opts isStream env =
      match tryPhase c config' (buildURL c.baseURL endpoint) isStream env with
      | .ok v => .ok v
      | .error e =>
        .error (.fce (classify e config' (opts.timeout.getD c.defaultTimeout))) := by
  unfold requestModel
  rw [h]

lemma tryPhase_badResponse (c : Client) (config' : Config) (url : String)
    (env : NetEnv) (resp : Resp) (rc : RespC)
    (h2 : env.respondsInTime = true) (h3 : env.outcome = .ok resp)
    (h4 : runChain c.resInterceptors ⟨resp, config'⟩ = .ok rc)
    (h5 : respOk rc.resp.status = false) :
    tryPhase c config' url false env = .error (.fce
      { message := (errorBodyMessage rc.resp).getD
          (.jstr ("Request failed with status " ++ toString rc.resp.status))
        config := config'
        code := "ERR_BAD_RESPONSE"
        response := some rc.resp }) := by
  unfold tryPhase
  rw [fetchModel_nonstream_responds url env h2, h3]
  simp [h4, h5]

lemma tryPhase_ok_204 (c : Client) (config' : Config) (url : String)
    (env : NetEnv) (resp : Resp) (rc : RespC)
    (h2 : env.respondsInTime = true) (h3 : env.outcome = .ok resp)
    (h4 : runChain c.resInterceptors ⟨resp, config'⟩ = .ok rc)
    (h5 : rc.resp.status = 204) :
    tryPhase c config' url false env = .ok Option.none := by
  unfold tryPhase
  rw [fetchModel_nonstream_responds url env h2, h3]
  simp [h4, h5, show respOk 204 = true from by decide]

lemma tryPhase_ok_2xx (c : Client) (config' : Config) (url : String)
    (env : NetEnv) (resp : Resp) (rc : RespC)
    (h2 : env.respondsInTime = true) (h3 : env.outcome = .ok resp)
    (h4 : runChain c.resInterceptors ⟨resp, config'⟩ = .ok rc)
    (h5 : respOk rc.resp.status = true) (h6 : rc.resp.status ≠ 204) :
    tryPhase c config' url false env = .ok (some rc.resp) := by
  unfold tryPhase
  rw [fetchModel_nonstream_responds url env h2, h3]
  simp [h4, h5, h6]

/-- **C1 counterexample.** A request-phase interceptor that throws makes
`request` fail with the raw thrown value, not with a Unified Client Error
coded as a network failure: the request-interceptor chain is awaited at
line 108, before the `try` block at line 110 opens, so its rejection
never reaches the classifying catch block. -/
theorem request_interceptor_error_unwrapped_counterexample :
    requestModel throwingReqClient "x" {} false plainEnv =
      .error (.js ⟨"Boom", "kaput"⟩) ∧
    raisedFCE (requestModel throwingReqClient "x" {} false plainEnv) = false :=
  ⟨rfl, rfl⟩

/-- **C1 (amended).** Failures raised inside the `try` block — the fetch
itself, the response-interceptor chain, or status handling — that are
neither named `AbortError` nor an already-constructed `FetchClientError`
are wrapped as an `ERR_NETWORK` `FetchClientError` carrying the finalized
(post-request-interceptor) configuration.  A failure of the
request-interceptor chain itself, however, propagates unwrapped, because
that chain is awaited before the `try` block opens. -/
theorem network_failures_wrapped_inside_try :
    (∀ (c : Client) (endpoint : String) (opts : Options) (isStream : Bool)
      (env : NetEnv) (config' : Config) (e : JsError),
      runChain c.reqInterceptors (initialConfig c endpoint opts isStream) =
        .ok config' →
      tryPhase c config' (buildURL c.baseURL endpoint) isStream env =
        .error (.js e) →
      e.name ≠ "AbortError" →
      requestModel c endpoint opts isStream env = .error (.fce
        { message := .jstr e.message
          config := config'
          code := "ERR_NETWORK"
          response := Option.none })) ∧
    (∀ (c : Client) (endpoint : String) (opts : Options) (isStream : Bool)
      (env : NetEnv) (e : Err),
      runChain c.reqInterceptors (initialConfig c endpoint opts isStream) =
        .error e →
      requestModel c endpoint opts isStream env = .error e) := by
  constructor
  · intro c endpoint opts isStream env config' e h1 h2 h3
    rw [requestModel_tryPhase c endpoint opts isStream env config' h1, h2]
    unfold classify
    simp [h3]
  · intro c endpoint opts isStream env e h
    exact requestModel_reqchain_error c endpoint opts isStream env e h

/-- Closed instance of `network_failures_wrapped_inside_try`: a DNS-level
`TypeError` from fetch is wrapped as `ERR_NETWORK` with the finalized
config; a throwing request interceptor escapes unwrapped. -/
theorem network_failures_wrapped_inside_try_witness :
    requestModel ({} : Client) "x" {} false dnsFailEnv = .error (.fce
      { message := .jstr "Failed to fetch"
        config := initialConfig {} "x" {} false
        code := "ERR_NETWORK"
        response := Option.none }) ∧
    requestModel throwingReqClient "y" {} false dnsFailEnv =
      .error (.js ⟨"Boom", "kaput"⟩) :=
  ⟨network_failures_wrapped_inside_try.1 {} "x" {} false dnsFailEnv
      (initialConfig {} "x" {} false) ⟨"TypeError", "Failed to fetch"⟩
      rfl rfl (by decide),
    network_failures_wrapped_inside_try.2 throwingReqClient "y" {} false
      dnsFailEnv (.js ⟨"Boom", "kaput"⟩) rfl⟩

/-- **C3.** (1) A non-streaming call whose server does not answer before
the armed timer fires fails with an `ECONNABORTED` `FetchClientError`
whose message spells out the effective timeout value (the call-level
override, else the client default); (2) for a streaming call no timer is
armed at all; and (3) a streaming call's outcome is independent of
whether the server would have beaten the timeout — under identical server
behaviour it can never fail by timeout. -/
theorem nonstream_timeout_and_stream_untimed :
    (∀ (c : Client) (endpoint : String) (opts : Options) (env : NetEnv)
      (config' : Config),
      runChain c.reqInterceptors (initialConfig c endpoint opts false) =
        .ok config' →
      env.respondsInTime = false →
      requestModel c endpoint opts false env = .error (.fce
        { message := .jstr ("Request timeout after " ++
            toString (opts.timeout.getD c.defaultTimeout) ++ " ms")
          config := config'
          code := "ECONNABORTED"
          response := Option.none })) ∧
    armsTimer true = false ∧
    (∀ (c : Client) (endpoint : String) (opts : Options) (env : NetEnv),
      requestModel c endpoint opts true env =
        requestModel c endpoint opts true { env with respondsInTime := true }) := by
  refine ⟨?_, rfl, ?_⟩
  · intro c endpoint opts env config' h1 h2
    rw [requestModel_tryPhase c endpoint opts false env config' h1]
    have htp : tryPhase c config' (buildURL c.baseURL endpoint) false env =
        .error (.js ⟨"AbortError", "The operation was aborted."⟩) := by
      unfold tryPhase
      rw [fetchModel_timeout _ env h2]
    rw [htp]
    rfl
  · intro c endpoint opts env
    have htp : ∀ config' : Config,
        tryPhase c config' (buildURL c.baseURL endpoint) true env =
          tryPhase c config' (buildURL c.baseURL endpoint) true
            { env with respondsInTime := true } := by
      intro config'
      unfold tryPhase
      rw [fetchModel_stream, fetchModel_stream]
    unfold requestModel
    cases hrc : runChain c.reqInterceptors (initialConfig c endpoint opts true) with
    | error e => simp [hrc]
    | ok config' => simp [hrc, htp config']

/-- Closed instance of `nonstream_timeout_and_stream_untimed`: with the
construction-default timeout of 10000 ms and a server that never answers
in time, the non-streaming call fails with the timeout-spelling message,
while the streaming call's result is unchanged by the slow server. -/
theorem nonstream_timeout_and_stream_untimed_witness :
    requestModel ({} : Client) "x" {} false slowEnv = .error (.fce
      { message := .jstr ("Request timeout after " ++ toString (10000 : Nat) ++ " ms")
        config := initialConfig {} "x" {} false
        code := "ECONNABORTED"
        response := Option.none }) ∧
    requestModel ({} : Client) "x" {} true slowEnv =
      requestModel ({} : Client) "x" {} true
        { slowEnv with respondsInTime := true } :=
  ⟨nonstream_timeout_and_stream_untimed.1 {} "x" {} slowEnv
      (initialConfig {} "x" {} false) rfl rfl,
    nonstream_timeout_and_stream_untimed.2.2 {} "x" {} slowEnv⟩

lemma errorBodyMessage_of_message_field (r : Resp)
    (fields : List (String × Json)) (msg : String)
    (h1 : r.jsonResult = .ok (.jobj fields))
    (h2 : fields.find? (fun p => p.1 = "message") = some ("message", .jstr msg)) :
    errorBodyMessage r = some (.jstr msg) := by
  unfold errorBodyMessage
  rw [h1]
  simp [h2]

lemma errorBodyMessage_of_decode_failure (r : Resp) (je : JsError)
    (h : r.jsonResult = .error je) :
    errorBodyMessage r = Option.none := by
  unfold errorBodyMessage
  rw [h]

/-- **C5.** A non-streaming, non-OK response raises an
`ERR_BAD_RESPONSE` `FetchClientError` carrying the finalized config and
the raw response; its message is the string `message` field of the
JSON-decoded body when the decode succeeds and that field is present,
and the generic status-based message when the body fails to decode or
carries no usable `message` field. -/
theorem bad_response_error_message :
    ∀ (c : Client) (endpoint : String) (opts : Options) (env : NetEnv)
      (config' : Config) (resp : Resp) (rc : RespC),
      runChain c.reqInterceptors (initialConfig c endpoint opts false) =
        .ok config' →
      env.respondsInTime = true →
      env.outcome = .ok resp →
      runChain c.resInterceptors ⟨resp, config'⟩ = .ok rc →
      respOk rc.resp.status = false →
      ((∀ (fields : List (String × Json)) (msg : String),
        rc.resp.jsonResult = .ok (.jobj fields) →
        fields.find? (fun p => p.1 = "message") = some ("message", .jstr msg) →
        requestModel c endpoint opts false env = .error (.fce
          { message := .jstr msg
            config := config'
            code := "ERR_BAD_RESPONSE"
            response := some rc.resp })) ∧
      (∀ je : JsError, rc.resp.jsonResult = .error je →
        requestModel c endpoint opts false env = .error (.fce
          { message := .jstr ("Request failed with status " ++
              toString rc.resp.status)
            config := config'
            code := "ERR_BAD_RESPONSE"
            response := some rc.resp })) ∧
      (errorBodyMessage rc.resp = Option.none →
        requestModel c endpoint opts false env = .error (.fce
          { message := .jstr ("Request failed with status " ++
              toString rc.resp.status)
            config := config'
            code := "ERR_BAD_RESPONSE"
            response := some rc.resp }))) := by
  intro c endpoint opts env config' resp rc h1 h2 h3 h4 h5
  have hbase := requestModel_tryPhase c endpoint opts false env config' h1
  have htp := tryPhase_badResponse c config' (buildURL c.baseURL endpoint)
    env resp rc h2 h3 h4 h5
  refine ⟨?_, ?_, ?_⟩
  · intro fields msg h6 h7
    rw [hbase, htp, errorBodyMessage_of_message_field rc.resp fields msg h6 h7]
    rfl
  · intro je h6
    rw [hbase, htp, errorBodyMessage_of_decode_failure rc.resp je h6]
    rfl
  · intro h6
    rw [hbase, htp, h6]
    rfl

/-- Closed instance of `bad_response_error_message`: status 404 with body
`\x7b"message": "not found"\x7d` yields the message `"not found"`; status
404 with an unparsable body yields the generic status message. -/
theorem bad_response_error_message_witness :
    requestModel ({} : Client) "x" {} false env404WithMessage = .error (.fce
      { message := .jstr "not found"
        config := initialConfig {} "x" {} false
        code := "ERR_BAD_RESPONSE"
        response := some ⟨404, .ok (.jobj [("message", .jstr "not found")])⟩ }) ∧
    requestModel ({} : Client) "x" {} false env404Unparsable = .error (.fce
      { message := .jstr ("Request failed with status " ++ toString (404 : Nat))
        config := initialConfig {} "x" {} false
        code := "ERR_BAD_RESPONSE"
        response := some ⟨404, .error ⟨"SyntaxError", "Unexpected token < in JSON"⟩⟩ }) :=
  ⟨(bad_response_error_message {} "x" {} env404WithMessage
      (initialConfig {} "x" {} false)
      ⟨404, .ok (.jobj [("message", .jstr "not found")])⟩
      ⟨⟨404, .ok (.jobj [("message", .jstr "not found")])⟩,
        initialConfig {} "x" {} false⟩
      rfl rfl rfl rfl (by decide)).1
      [("message", .jstr "not found")] "not found" rfl rfl,
    (bad_response_error_message {} "x" {} env404Unparsable
      (initialConfig {} "x" {} false)
      ⟨404, .error ⟨"SyntaxError", "Unexpected token < in JSON"⟩⟩
      ⟨⟨404, .error ⟨"SyntaxError", "Unexpected token < in JSON"⟩⟩,
        initialConfig {} "x" {} false⟩
      rfl rfl rfl rfl (by decide)).2.1
      ⟨"SyntaxError", "Unexpected token < in JSON"⟩ rfl⟩

lemma requestModel_204 (c : Client) (endpoint : String) (opts : Options)
    (env : NetEnv) (config' : Config) (resp : Resp) (rc : RespC)
    (h1 : runChain c.reqInterceptors (initialConfig c endpoint opts false) =
      .ok config')
    (h2 : env.respondsInTime = true) (h3 : env.outcome = .ok resp)
    (h4 : runChain c.resInterceptors ⟨resp, config'⟩ = .ok rc)
    (h5 : rc.resp.status = 204) :
    requestModel c endpoint opts false env = .ok Option.none := by
  rw [requestModel_tryPhase c endpoint opts false env config' h1,
    tryPhase_ok_204 c config' (buildURL c.baseURL endpoint) env resp rc h2 h3 h4 h5]

lemma requestModel_2xx (c : Client) (endpoint : String) (opts : Options)
    (env : NetEnv) (config' : Config) (resp : Resp) (rc : RespC)
    (h1 : runChain c.reqInterceptors (initialConfig c endpoint opts false) =
      .ok config')
    (h2 : env.respondsInTime = true) (h3 : env.outcome = .ok resp)
    (h4 : runChain c.resInterceptors ⟨resp, config'⟩ = .ok rc)
    (h5 : respOk rc.resp.status = true) (h6 : rc.resp.status ≠ 204) :
    requestModel c endpoint opts false env = .ok (some rc.resp) := by
  rw [requestModel_tryPhase c endpoint opts false env config' h1,
    tryPhase_ok_2xx c config' (buildURL c.baseURL endpoint) env resp rc h2 h3 h4 h5 h6]

/-- **C6 counterexample.** The 204-derived `null` is *not* a distinct
value from a decoded JSON `null` body: `get` on a 204 response (even one
whose body would not decode) and `get` on a 200 response whose body
decodes to JSON `null` both resolve to the very same JS `null`. -/
theorem status204_null_counterexample :
    getModel ({} : Client) "x" {} env204 = .ok .jnull ∧
    getModel ({} : Client) "x" {} envJsonNull = .ok .jnull ∧
    getModel ({} : Client) "x" {} env204 = getModel ({} : Client) "x" {} envJsonNull :=
  ⟨rfl, rfl, rfl⟩

/-- **C6 (amended).** For every HTTP-method wrapper, a 204 response
resolves to `null`, and this `null` is produced without decoding the
body — the decode result is quantified arbitrarily, so the wrapper
returns `null` even when the body would fail to decode.  The value,
however, coincides with the result of a body decoding to JSON `null`
(as the counterexample forces). -/
theorem status204_resolves_null_undecoded :
    (∀ (c : Client) (endpoint : String) (opts : Options) (env : NetEnv)
      (config' : Config) (resp : Resp) (rc : RespC),
      runChain c.reqInterceptors
        (initialConfig c endpoint { opts with method := some "GET" } false) =
          .ok config' →
      env.respondsInTime = true → env.outcome = .ok resp →
      runChain c.resInterceptors ⟨resp, config'⟩ = .ok rc →
      rc.resp.status = 204 →
      getModel c endpoint opts env = .ok .jnull) ∧
    (∀ (c : Client) (endpoint : String) (body : JsVal) (opts : Options)
      (env : NetEnv) (config' : Config) (resp : Resp) (rc : RespC),
      runChain c.reqInterceptors
        (initialConfig c endpoint
          { opts with method := some "POST", body := prepareBody body } false) =
          .ok config' →
      env.respondsInTime = true → env.outcome = .ok resp →
      runChain c.resInterceptors ⟨resp, config'⟩ = .ok rc →
      rc.resp.status = 204 →
      postModel c endpoint body opts env = .ok .jnull) ∧
    (∀ (c : Client) (endpoint : String) (body : JsVal) (opts : Options)
      (env : NetEnv) (config' : Config) (resp : Resp) (rc : RespC),
      runChain c.reqInterceptors
        (initialConfig c endpoint
          { opts with method := some "PUT", body := prepareBody body } false) =
          .ok config' →
      env.respondsInTime = true → env.outcome = .ok resp →
      runChain c.resInterceptors ⟨resp, config'⟩ = .ok rc →
      rc.resp.status = 204 →
      putModel c endpoint body opts env = .ok .jnull) ∧
    (∀ (c : Client) (endpoint : String) (body : JsVal) (opts : Options)
      (env : NetEnv) (config' : Config) (resp : Resp) (rc : RespC),
      runChain c.reqInterceptors
        (initialConfig c endpoint
          { opts with method := some "PATCH", body := prepareBody body } false) =
          .ok config' →
      env.respondsInTime = true → env.outcome = .ok resp →
      runChain c.resInterceptors ⟨resp, config'⟩ = .ok rc →
      rc.resp.status = 204 →
      patchModel c endpoint body opts env = .ok .jnull) ∧
    (∀ (c : Client) (endpoint : String) (opts : Options) (env : NetEnv)
      (config' : Config) (resp : Resp) (rc : RespC),
      runChain c.reqInterceptors
        (initialConfig c endpoint { opts with method := some "DELETE" } false) =
          .ok config' →
      env.respondsInTime = true → env.outcome = .ok resp →
      runChain c.resInterceptors ⟨resp, config'⟩ = .ok rc →
      rc.resp.status = 204 →
      deleteModel c endpoint opts env = .ok .jnull) := by
  refine ⟨?_, ?_, ?_, ?_, ?_⟩
  · intro c endpoint opts env config' resp rc h1 h2 h3 h4 h5
    unfold getModel
    rw [requestModel_204 c endpoint _ env config' resp rc h1 h2 h3 h4 h5]
    rfl
  · intro c endpoint body opts env config' resp rc h1 h2 h3 h4 h5
    unfold postModel
    rw [requestModel_204 c endpoint _ env config' resp rc h1 h2 h3 h4 h5]
    rfl
  · intro c endpoint body opts env config' resp rc h1 h2 h3 h4 h5
    unfold putModel
    rw [requestModel_204 c endpoint _ env config' resp rc h1 h2 h3 h4 h5]
    rfl
  · intro c endpoint body opts env config' resp rc h1 h2 h3 h4 h5
    unfold patchModel
    rw [requestModel_204 c endpoint _ env config' resp rc h1 h2 h3 h4 h5]
    rfl
  · intro c endpoint opts env config' resp rc h1 h2 h3 h4 h5
    unfold deleteModel
    rw [requestModel_204 c endpoint _ env config' resp rc h1 h2 h3 h4 h5]
    rfl

/-- Closed instance of `status204_resolves_null_undecoded`: all five
wrappers resolve a 204 response with an undecodable body to `null`. -/
theorem status204_resolves_null_undecoded_witness :
    getModel ({} : Client) "x" {} env204 = .ok .jnull ∧
    postModel ({} : Client) "x" JsVal.undef {} env204 = .ok .jnull ∧
    putModel ({} : Client) "x" JsVal.undef {} env204 = .ok .jnull ∧
    patchModel ({} : Client) "x" JsVal.undef {} env204 = .ok .jnull ∧
    deleteModel ({} : Client) "x" {} env204 = .ok .jnull := by
  have resp204 : Resp := ⟨204, .error ⟨"SyntaxError", "Unexpected end of JSON input"⟩⟩
  refine ⟨?_, ?_, ?_, ?_, ?_⟩
  · exact status204_resolves_null_undecoded.1 {} "x" {} env204
      (initialConfig {} "x" { method := some "GET" } false)
      ⟨204, .error ⟨"SyntaxError", "Unexpected end of JSON input"⟩⟩
      ⟨⟨204, .error ⟨"SyntaxError", "Unexpected end of JSON input"⟩⟩,
        initialConfig {} "x" { method := some "GET" } false⟩
      rfl rfl rfl rfl rfl
  · exact status204_resolves_null_undecoded.2.1 {} "x" JsVal.undef {} env204
      (initialConfig {} "x" { method := some "POST" } false)
      ⟨204, .error ⟨"SyntaxError", "Unexpected end of JSON input"⟩⟩
      ⟨⟨204, .error ⟨"SyntaxError", "Unexpected end of JSON input"⟩⟩,
        initialConfig {} "x" { method := some "POST" } false⟩
      rfl rfl rfl rfl rfl
  · exact status204_resolves_null_undecoded.2.2.1 {} "x" JsVal.undef {} env204
      (initialConfig {} "x" { method := some "PUT" } false)
      ⟨204, .error ⟨"SyntaxError", "Unexpected end of JSON input"⟩⟩
      ⟨⟨204, .error ⟨"SyntaxError", "Unexpected end of JSON input"⟩⟩,
        initialConfig {} "x" { method := some "PUT" } false⟩
      rfl rfl rfl rfl rfl
  · exact status204_resolves_null_undecoded.2.2.2.1 {} "x" JsVal.undef {} env204
      (initialConfig {} "x" { method := some "PATCH" } false)
      ⟨204, .error ⟨"SyntaxError", "Unexpected end of JSON input"⟩⟩
      ⟨⟨204, .error ⟨"SyntaxError", "Unexpected end of JSON input"⟩⟩,
        initialConfig {} "x" { method := some "PATCH" } false⟩
      rfl rfl rfl rfl rfl
  · exact status204_resolves_null_undecoded.2.2.2.2 {} "x" {} env204
      (initialConfig {} "x" { method := some "DELETE" } false)
      ⟨204, .error ⟨"SyntaxError", "Unexpected end of JSON input"⟩⟩
      ⟨⟨204, .error ⟨"SyntaxError", "Unexpected end of JSON input"⟩⟩,
        initialConfig {} "x" { method := some "DELETE" } false⟩
      rfl rfl rfl rfl rfl

/-- **C10.** When the pipeline returns a successful non-204 response but
`response.json()` fails, every HTTP-method wrapper rethrows the decode
error raw: the result is the unwrapped JS error, not a
`FetchClientError` — the decode runs in the wrapper, after the
pipeline's classification point, outside any try/catch. -/
theorem wrapper_decode_failure_not_wrapped :
    ∀ (c : Client) (endpoint : String) (opts : Options) (env : NetEnv)
      (config' : Config) (resp : Resp) (rc : RespC) (e : JsError),
      env.respondsInTime = true → env.outcome = .ok resp →
      runChain c.resInterceptors ⟨resp, config'⟩ = .ok rc →
      respOk rc.resp.status = true → rc.resp.status ≠ 204 →
      rc.resp.jsonResult = .error e →
      ((runChain c.reqInterceptors
          (initialConfig c endpoint { opts with method := some "GET" } false) =
            .ok config' →
        getModel c endpoint opts env = .error (.js e) ∧
        raisedFCE (getModel c endpoint opts env) = false) ∧
      (∀ body : JsVal, runChain c.reqInterceptors
          (initialConfig c endpoint
            { opts with method := some "POST", body := prepareBody body } false) =
            .ok config' →
        postModel c endpoint body opts env = .error (.js e) ∧
        raisedFCE (postModel c endpoint body opts env) = false) ∧
      (∀ body : JsVal, runChain c.reqInterceptors
          (initialConfig c endpoint
            { opts with method := some "PUT", body := prepareBody body } false) =
            .ok config' →
        putModel c endpoint body opts env = .error (.js e) ∧
        raisedFCE (putModel c endpoint body opts env) = false) ∧
      (∀ body : JsVal, runChain c.reqInterceptors
          (initialConfig c endpoint
            { opts with method := some "PATCH", body := prepareBody body } false) =
            .ok config' →
        patchModel c endpoint body opts env = .error (.js e) ∧
        raisedFCE (patchModel c endpoint body opts env) = false) ∧
      (runChain c.reqInterceptors
          (initialConfig c endpoint { opts with method := some "DELETE" } false) =
            .ok config' →
        deleteModel c endpoint opts env = .error (.js e) ∧
        raisedFCE (deleteModel c endpoint opts env) = false)) := by
  intro c endpoint opts env config' resp rc e h2 h3 h4 h5 h6 h7
  refine ⟨?_, ?_, ?_, ?_, ?_⟩
  · intro h1
    have hget : getModel c endpoint opts env = .error (.js e) := by
      unfold getModel
      rw [requestModel_2xx c endpoint _ env config' resp rc h1 h2 h3 h4 h5 h6]
      simp only [decodeWrapperResult]
      rw [h7]
    exact ⟨hget, by rw [hget]; rfl⟩
  · intro body h1
    have hpost : postModel c endpoint body opts env = .error (.js e) := by
      unfold postModel
      rw [requestModel_2xx c endpoint _ env config' resp rc h1 h2 h3 h4 h5 h6]
      simp only [decodeWrapperResult]
      rw [h7]
    exact ⟨hpost, by rw [hpost]; rfl⟩
  · intro body h1
    have hput : putModel c endpoint body opts env = .error (.js e) := by
      unfold putModel
      rw [requestModel_2xx c endpoint _ env config' resp rc h1 h2 h3 h4 h5 h6]
      simp only [decodeWrapperResult]
      rw [h7]
    exact ⟨hput, by rw [hput]; rfl⟩
  · intro body h1
    have hpatch : patchModel c endpoint body opts env = .error (.js e) := by
      unfold patchModel
      rw [requestModel_2xx c endpoint _ env config' resp rc h1 h2 h3 h4 h5 h6]
      simp only [decodeWrapperResult]
      rw [h7]
    exact ⟨hpatch, by rw [hpatch]; rfl⟩
  · intro h1
    have hdel : deleteModel c endpoint opts env = .error (.js e) := by
      unfold deleteModel
      rw [requestModel_2xx c endpoint _ env config' resp rc h1 h2 h3 h4 h5 h6]
      simp only [decodeWrapperResult]
      rw [h7]
    exact ⟨hdel, by rw [hdel]; rfl⟩

/-- Closed instance of `wrapper_decode_failure_not_wrapped`: a 200
response with an unparsable body makes `get` rethrow the raw
`SyntaxError` and the result is not a `FetchClientError`. -/
theorem wrapper_decode_failure_not_wrapped_witness :
    getModel ({} : Client) "x" {} envBadJson =
      .error (.js ⟨"SyntaxError", "Unexpected token < in JSON"⟩) ∧
    raisedFCE (getModel ({} : Client) "x" {} envBadJson) = false :=
  (wrapper_decode_failure_not_wrapped {} "x" {} envBadJson
    (initialConfig {} "x" { method := some "GET" } false)
    ⟨200, .error ⟨"SyntaxError", "Unexpected token < in JSON"⟩⟩
    ⟨⟨200, .error ⟨"SyntaxError", "Unexpected token < in JSON"⟩⟩,
      initialConfig {} "x" { method := some "GET" } false⟩
    ⟨"SyntaxError", "Unexpected token < in JSON"⟩
    rfl rfl rfl (by decide) (by decide) rfl).1 rfl

lemma closeStep_isClosed (s : SSEConnState) : (closeStep s).isClosed = true := by
  unfold closeStep
  by_cases h : s.isClosed <;> simp [h]

lemma closeStep_of_isClosed (s : SSEConnState) (h : s.isClosed = true) :
    closeStep s = s := by
  unfold closeStep
  rw [if_pos h]

lemma closeStep_inv (s : SSEConnState) (h : sseCloseInv s) :
    sseCloseInv (closeStep s) := by
  obtain ⟨h1, h2⟩ := h
  unfold sseCloseInv at *
  unfold closeStep
  split_ifs with hc
  · exact ⟨h1, h2⟩
  · refine ⟨?_, ?_⟩
    · intro habs
      simp at habs
    · have h0 := h1 (by simpa using hc)
      simp [h0]

lemma processChunk_isClosed (s : SSEConnState) (text : String) :
    (processChunk s text).isClosed = s.isClosed := rfl

lemma processChunk_onCloseCount (s : SSEConnState) (text : String) :
    (processChunk s text).onCloseCount = s.onCloseCount := rfl

lemma sseCloseInv_congr (s t : SSEConnState)
    (h1 : t.isClosed = s.isClosed) (h2 : t.onCloseCount = s.onCloseCount)
    (h : sseCloseInv s) : sseCloseInv t := by
  unfold sseCloseInv
  rw [h1, h2]
  exact h

lemma sseStep_inv (s : SSEConnState) (e : SSEEvent) (h : sseCloseInv s) :
    sseCloseInv (sseStep s e) := by
  obtain ⟨h1, h2⟩ := h
  unfold sseCloseInv at *
  cases e with
  | userClose =>
    simp only [sseStep]
    unfold closeStep
    split_ifs with hc
    · exact ⟨h1, h2⟩
    · refine ⟨fun habs => by simp at habs, ?_⟩
      have h0 := h1 (by simpa using hc)
      simp [h0]
  | respOk =>
    simp only [sseStep, closeStep]
    split_ifs <;>
      first
        | exact ⟨h1, h2⟩
        | (refine ⟨fun habs => by simp at habs, ?_⟩
           simp_all
           omega)
        | (refine ⟨fun habs => ?_, ?_⟩ <;> simp_all <;> omega)
  | respFail =>
    simp only [sseStep, closeStep]
    split_ifs <;>
      first
        | exact ⟨h1, h2⟩
        | (refine ⟨fun habs => by simp at habs, ?_⟩
           simp_all
           omega)
        | (refine ⟨fun habs => ?_, ?_⟩ <;> simp_all <;> omega)
  | readResolve r =>
    cases r with
    | done =>
      simp only [sseStep, closeStep]
      split_ifs <;>
        first
          | exact ⟨h1, h2⟩
          | (refine ⟨fun habs => by simp at habs, ?_⟩
             simp_all
             omega)
          | (refine ⟨fun habs => ?_, ?_⟩ <;> simp_all <;> omega)
    | chunk text cb =>
      simp only [sseStep, closeStep, processChunk]
      split_ifs <;>
        first
          | exact ⟨h1, h2⟩
          | (refine ⟨fun habs => by simp at habs, ?_⟩
             simp_all
             omega)
          | (refine ⟨fun habs => ?_, ?_⟩ <;> simp_all <;> omega)

lemma sseStep_isClosed_mono (s : SSEConnState) (e : SSEEvent)
    (h : s.isClosed = true) : (sseStep s e).isClosed = true := by
  cases e with
  | userClose =>
    simp only [sseStep]
    unfold closeStep
    split_ifs <;> simp_all
  | respOk =>
    simp only [sseStep, closeStep]
    split_ifs <;> simp_all
  | respFail =>
    simp only [sseStep, closeStep]
    split_ifs <;> simp_all
  | readResolve r =>
    cases r with
    | done =>
      simp only [sseStep, closeStep]
      split_ifs <;> simp_all
    | chunk text cb =>
      simp only [sseStep, closeStep, processChunk]
      split_ifs <;> simp_all

lemma sseRun_inv (events : List SSEEvent) : sseCloseInv (sseRun events) := by
  suffices hgen : ∀ (s : SSEConnState), sseCloseInv s →
      sseCloseInv (events.foldl sseStep s) by
    apply hgen
    unfold sseCloseInv
    exact ⟨fun _ => rfl, by decide⟩
  induction events with
  | nil => intro s hs; exact hs
  | cons e rest ih =>
    intro s hs
    exact ih (sseStep s e) (sseStep_inv s e hs)

/-- **C9 counterexample.** `readyState` is not terminal at `closed`:
calling `close()` while the connection is still awaiting the response
moves the state to `closed`, but when the response then arrives with a
readable OK body the background task unconditionally sets
`readyState = 'open'` (and fires `onOpen`, re-acquiring a reader) — the
connection leaves the `closed` state and stays `open`, because the
trailing guarded `close()` is a no-op on the already-set flag. -/
theorem sse_closed_state_not_terminal_counterexample :
    (sseRun [SSEEvent.userClose]).readyState = RState.closed ∧
    (sseRun [SSEEvent.userClose]).isClosed = true ∧
    (sseRun [SSEEvent.userClose, SSEEvent.respOk]).readyState = RState.opened ∧
    (sseRun [SSEEvent.userClose, SSEEvent.respOk]).onOpenCount = 1 :=
  ⟨rfl, rfl, rfl, rfl⟩

/-- **C9 (amended).** For every event trace of one SSE connection,
`onClose` is invoked at most once; the internal idempotency flag is
terminal (once `isClosed` is set, no further event clears it); `close()`
on an already-closed connection is the identity and `close()` is
idempotent (and total — the source swallows the only fallible call,
`reader.cancel()`, with `.catch(() => \x7b\x7d)`).  `readyState`,
however, is *not* terminal at `closed`: it can transition back to `open`
when the response arrives after an early `close()` (as the
counterexample forces). -/
theorem sse_onClose_at_most_once :
    (∀ events : List SSEEvent, (sseRun events).onCloseCount ≤ 1) ∧
    (∀ (events extra : List SSEEvent), (sseRun events).isClosed = true →
      (sseRun (events ++ extra)).isClosed = true) ∧
    (∀ s : SSEConnState, s.isClosed = true → closeStep s = s) ∧
    (∀ s : SSEConnState, closeStep (closeStep s) = closeStep s) := by
  refine ⟨?_, ?_, ?_, ?_⟩
  · intro events
    exact (sseRun_inv events).2
  · intro events extra h
    unfold sseRun at h ⊢
    rw [List.foldl_append]
    induction extra generalizing events with
    | nil => exact h
    | cons e rest ih =>
      rw [List.foldl_cons]
      have h1 : (sseStep (List.foldl sseStep {} events) e).isClosed = true :=
        sseStep_isClosed_mono _ e h
      have := ih (events ++ [e]) (by rw [List.foldl_append]; simpa using h1)
      rw [List.foldl_append] at this
      simpa using this
  · intro s h
    exact closeStep_of_isClosed s h
  · intro s
    exact closeStep_of_isClosed (closeStep s) (closeStep_isClosed s)

/-- Closed instance of `sse_onClose_at_most_once`: a trace that closes
early, sees the response arrive, and closes twice more still fires
`onClose` exactly once, and a closed connection stays flagged closed. -/
theorem sse_onClose_at_most_once_witness :
    (sseRun [SSEEvent.userClose, SSEEvent.respOk, SSEEvent.userClose,
      SSEEvent.userClose]).onCloseCount ≤ 1 ∧
    (sseRun ([SSEEvent.userClose] ++ [SSEEvent.respOk])).isClosed = true :=
  ⟨sse_onClose_at_most_once.1 [SSEEvent.userClose, SSEEvent.respOk,
      SSEEvent.userClose, SSEEvent.userClose],
    sse_onClose_at_most_once.2.1 [SSEEvent.userClose] [SSEEvent.respOk] rfl⟩

end AxiosImposto
